import Mathlib

/-!
# bimg: the libvips bridge header `vips.h`

A shallow embedding of the definitions of `vips.h`: the `INT_TO_GBOOLEAN`
macro, the `enum types` format tags, the three inline helpers over a
`VipsImage` (`has_alpha_channel`, `has_profile_embed`, `remove_profile`) and
the prototypes of the load and save bridges.
-/

namespace Bimg

/-! ## Constants of glib and libvips used by the header -/

/-- The glib constant `FALSE`, `#define FALSE (0)`. -/
def FALSE : Int := 0

/-- The glib constant `TRUE`, `#define TRUE (!FALSE)`, which is 1 in C. -/
def TRUE : Int := if FALSE = 0 then 1 else 0

/-- The macro `#define EXIF_IFD0_ORIENTATION "exif-ifd0-Orientation"`. -/
def EXIF_IFD0_ORIENTATION : String := "exif-ifd0-Orientation"

/-- The macro `#define INT_TO_GBOOLEAN(bool) (bool > 0 ? TRUE : FALSE)`. -/
def INT_TO_GBOOLEAN (bool : Int) : Int :=
  if bool > 0 then TRUE else FALSE

/-- C truthiness of an integer: a scalar is true when it compares unequal to 0. -/
def c_truthy (x : Int) : Bool := x != 0

/-! ## `enum types` -/

/-- The format tags of `enum types`. -/
inductive types where
  | UNKNOWN
  | JPEG
  | WEBP
  | PNG
  | TIFF
  | GIF
  | PDF
  | SVG
  | MAGICK
  | HEIF
  | AVIF
  | JXL
  deriving DecidableEq, Repr

/-- The enumerators of `enum types` in the order of their declaration. -/
def types.enumerators : List types :=
  [.UNKNOWN, .JPEG, .WEBP, .PNG, .TIFF, .GIF, .PDF, .SVG, .MAGICK, .HEIF, .AVIF, .JXL]

/-- The integer value of an enumerator: the first one is given as `= 0`, every
later one has no initialiser and so is its predecessor plus one, which is its
position in the declaration. -/
def types.val (t : types) : Int :=
  (types.enumerators.indexOf t : Nat)

/-! ## `VipsImage` -/

/-- A glib type identifier (`GType`, an unsigned integer as wide as
`unsigned long`); 0 is the invalid type. -/
abbrev GType := Nat

/-- Modelled from the spec: the libvips enumerator `VIPS_INTERPRETATION_B_W`
(the "grayscale" interpretation) is declared in `vips/vips.h`, which the header
only includes; its value there is 1. -/
def VIPS_INTERPRETATION_B_W : Int := 1

/-- Modelled from the spec: the libvips enumerator `VIPS_INTERPRETATION_CMYK`
(the "CMYK" interpretation) is declared in `vips/vips.h`, which the header only
includes; its value there is 15. -/
def VIPS_INTERPRETATION_CMYK : Int := 15

/-- Modelled from the spec: the libvips name of the ICC profile metadata item,
`VIPS_META_ICC_NAME`, is defined in `vips/header.h`, which the header only
includes. -/
def VIPS_META_ICC_NAME : String := "icc-profile-data"

/-- The value of a metadata item: its type and its payload. -/
structure GValue where
  g_type : GType
  data : List Nat
  deriving DecidableEq, Repr

/-- The fields of libvips's `VipsImage` that the header reads or that its
metadata calls go through: the dimensions, the band count `Bands`, the
interpretation `Type` (here `Type_`, as `Type` is reserved), and the metadata table `meta` (a null pointer until the
first item is set), keyed by item name. -/
structure VipsImage where
  Xsize : Int
  Ysize : Int
  Bands : Int
  Type_ : Int
  meta : Option (List (String × GValue))
  deriving DecidableEq, Repr

/-- The value of a C logical expression as an `int`: 1 when it holds, else 0. -/
def c_int_of_bool (b : Bool) : Int := if b then 1 else 0

/-- The inline helper `has_alpha_channel`:
`(Bands == 2 && Type == B_W) || (Bands == 4 && Type != CMYK) ||
(Bands == 5 && Type == CMYK)`, returned as an `int`. -/
def has_alpha_channel (image : VipsImage) : Int :=
  c_int_of_bool
    ((image.Bands == 2 && image.Type_ == VIPS_INTERPRETATION_B_W) ||
     (image.Bands == 4 && image.Type_ != VIPS_INTERPRETATION_CMYK) ||
     (image.Bands == 5 && image.Type_ == VIPS_INTERPRETATION_CMYK))

/-! ## The metadata calls of libvips -/

/-- Modelled from the spec: glib's `g_hash_table_lookup` is not part of the
repository; it returns the value stored under the key, or nothing. -/
def g_hash_table_lookup (table : List (String × GValue)) (key : String) : Option GValue :=
  match table with
  | [] => none
  | (k, v) :: rest => if k = key then some v else g_hash_table_lookup rest key

/-- Modelled from the spec: glib's `g_hash_table_remove` is not part of the
repository; it drops what is stored under the key, keeps every other entry, and
reports whether the key was found. -/
def g_hash_table_remove (table : List (String × GValue)) (key : String) :
    List (String × GValue) × Bool :=
  (table.filter (fun e => e.1 != key), table.any (fun e => e.1 == key))

/-- Modelled from the spec: the table `vips_header_fields` of libvips (name and
type name of each built-in header field), followed by the old names libvips
still answers to (`vips_header_fields_old`); neither is part of the
repository. -/
def vips_header_fields : List (String × String) :=
  [("width", "gint"), ("height", "gint"), ("bands", "gint"),
   ("format", "VipsBandFormat"), ("coding", "VipsCoding"),
   ("interpretation", "VipsInterpretation"),
   ("xoffset", "gint"), ("yoffset", "gint"),
   ("xres", "gdouble"), ("yres", "gdouble"), ("filename", "gchararray"),
   ("Xsize", "gint"), ("Ysize", "gint"), ("Bands", "gint"), ("Bbits", "gint"),
   ("BandFmt", "gint"), ("Coding", "gint"), ("Type", "gint"),
   ("Xoffset", "gint"), ("Yoffset", "gint"),
   ("Xres", "gdouble"), ("Yres", "gdouble")]

/-- The metadata item an image holds under a name, if any (`image->meta &&
g_hash_table_lookup(image->meta, name)`). -/
def VipsImage.item (image : VipsImage) (name : String) : Option GValue :=
  match image.meta with
  | none => none
  | some table => g_hash_table_lookup table name

/-- Modelled from the spec: `vips_image_get_typeof` is a libvips function, not
part of the repository ("ICC profile read"). It answers the type of a built-in
header field when the name is one, else the type of the value of the metadata
item of that name, else 0. The glib type registry `g_type_from_name` is a
parameter. -/
def vips_image_get_typeof (g_type_from_name : String → GType) (image : VipsImage)
    (name : String) : GType :=
  match vips_header_fields.lookup name with
  | some tyname => g_type_from_name tyname
  | none =>
    match image.item name with
    | some value => value.g_type
    | none => 0

/-- Modelled from the spec: `vips_image_remove` is a libvips function, not part
of the repository ("in place metadata strip; does not reallocate pixels"). It
removes the item of that name from the metadata table of the image, when there
is a table, and returns whether one was found; nothing else of the image is
touched. The result is the image afterwards and the returned `gboolean`. -/
def vips_image_remove (image : VipsImage) (name : String) : VipsImage × Bool :=
  match image.meta with
  | none => (image, false)
  | some table =>
    let r := g_hash_table_remove table name
    ({ image with meta := some r.1 }, r.2)

/-- The inline helper `has_profile_embed`:
`return vips_image_get_typeof(image, VIPS_META_ICC_NAME);`. -/
def has_profile_embed (g_type_from_name : String → GType) (image : VipsImage) : Nat :=
  vips_image_get_typeof g_type_from_name image VIPS_META_ICC_NAME

/-- The inline helper `remove_profile`:
`vips_image_remove(image, VIPS_META_ICC_NAME);`, the image afterwards. -/
def remove_profile (image : VipsImage) : VipsImage :=
  (vips_image_remove image VIPS_META_ICC_NAME).1

/-- Every value in the metadata table of the image is an initialised `GValue`,
that is, one of a valid (non-zero) type. -/
def VipsImage.values_initialised (image : VipsImage) : Prop :=
  ∀ table, image.meta = some table → ∀ e ∈ table, e.2.g_type ≠ 0

/-- Modelled from the spec: the body of `vips_flatten_background_brigde` is not
in the header, which has its prototype only. The spec: it "composites any alpha
channel onto the given solid color, producing an opaque image; no-op if the
image has no alpha", and flatten is a transform "removing alpha" that changes
the band count. So an image without alpha comes back as it is, and one with
alpha loses its last band, the alpha band. Pixel values are not modelled, hence
the colour does not show in the result. -/
def vips_flatten_background_brigde (image : VipsImage) (_r _g _b : Rat) : VipsImage :=
  if has_alpha_channel image = 0 then image
  else { image with Bands := image.Bands - 1 }

/-! ## Prototypes -/

/-- One parameter of a C prototype: its type and its name. -/
structure CParam where
  ctype : String
  name : String
  deriving DecidableEq, Repr

/-- A C function prototype. -/
structure CDecl where
  ret : String
  name : String
  params : List CParam
  deriving DecidableEq, Repr

/-- Whether the prototype has a parameter of the given name. -/
def CDecl.takes (d : CDecl) (p : String) : Bool :=
  d.params.any (fun q => q.name == p)

/-- The three leading parameters of every save bridge. -/
def save_leading : List CParam :=
  [⟨"VipsImage *", "in"⟩, ⟨"void **", "buf"⟩, ⟨"size_t *", "len"⟩]

def vips_init_image : CDecl :=
  ⟨"int", "vips_init_image",
    [⟨"void *", "buf"⟩, ⟨"size_t", "len"⟩, ⟨"int", "imageType"⟩, ⟨"VipsImage **", "out"⟩]⟩

def vips_jpegload_buffer_shrink : CDecl :=
  ⟨"int", "vips_jpegload_buffer_shrink",
    [⟨"void *", "buf"⟩, ⟨"size_t", "len"⟩, ⟨"VipsImage **", "out"⟩, ⟨"int", "shrink"⟩]⟩

def vips_webpload_buffer_shrink : CDecl :=
  ⟨"int", "vips_webpload_buffer_shrink",
    [⟨"void *", "buf"⟩, ⟨"size_t", "len"⟩, ⟨"VipsImage **", "out"⟩, ⟨"int", "shrink"⟩]⟩

def vips_jpegsave_bridge : CDecl :=
  ⟨"int", "vips_jpegsave_bridge",
    save_leading ++ [⟨"int", "strip"⟩, ⟨"int", "quality"⟩, ⟨"int", "interlace"⟩]⟩

def vips_pngsave_bridge : CDecl :=
  ⟨"int", "vips_pngsave_bridge",
    save_leading ++ [⟨"int", "strip"⟩, ⟨"int", "compression"⟩, ⟨"int", "quality"⟩,
      ⟨"int", "interlace"⟩, ⟨"int", "palette"⟩, ⟨"int", "speed"⟩]⟩

def vips_webpsave_bridge : CDecl :=
  ⟨"int", "vips_webpsave_bridge",
    save_leading ++ [⟨"int", "strip"⟩, ⟨"int", "quality"⟩, ⟨"int", "lossless"⟩]⟩

def vips_tiffsave_bridge : CDecl :=
  ⟨"int", "vips_tiffsave_bridge", save_leading⟩

def vips_heifsave_bridge : CDecl :=
  ⟨"int", "vips_heifsave_bridge",
    save_leading ++ [⟨"int", "strip"⟩, ⟨"int", "quality"⟩, ⟨"int", "lossless"⟩]⟩

def vips_avifsave_bridge : CDecl :=
  ⟨"int", "vips_avifsave_bridge",
    save_leading ++ [⟨"int", "strip"⟩, ⟨"int", "quality"⟩, ⟨"int", "lossless"⟩,
      ⟨"int", "speed"⟩]⟩

def vips_gifsave_bridge : CDecl :=
  ⟨"int", "vips_gifsave_bridge", save_leading ++ [⟨"int", "strip"⟩]⟩

def vips_jxlsave_bridge : CDecl :=
  ⟨"int", "vips_jxlsave_bridge",
    save_leading ++ [⟨"int", "strip"⟩, ⟨"int", "quality"⟩, ⟨"int", "lossless"⟩]⟩

/-- The prototypes under "Image loading operations". -/
def load_entry_points : List CDecl :=
  [vips_init_image, vips_jpegload_buffer_shrink, vips_webpload_buffer_shrink]

/-- The save bridge the header declares for a format tag, named after the
format; the header declares none for `UNKNOWN`, `PDF`, `SVG` and `MAGICK`. -/
def save_bridge : types → Option CDecl
  | .JPEG => some vips_jpegsave_bridge
  | .PNG => some vips_pngsave_bridge
  | .WEBP => some vips_webpsave_bridge
  | .TIFF => some vips_tiffsave_bridge
  | .HEIF => some vips_heifsave_bridge
  | .AVIF => some vips_avifsave_bridge
  | .GIF => some vips_gifsave_bridge
  | .JXL => some vips_jxlsave_bridge
  | _ => none

/-- The six encoder knobs, the columns of the per-format table of the spec. -/
def encode_knobs : List String :=
  ["quality", "compression", "lossless", "interlace", "palette", "speed"]

/-- The per-format table of the spec, row by row: the knobs with a check mark
(for PNG, `quality` is checked "if palette"). Formats without a row have
none. -/
def spec_accepted : types → List String
  | .JPEG => ["quality", "interlace"]
  | .PNG => ["quality", "compression", "interlace", "palette", "speed"]
  | .WEBP => ["quality", "lossless"]
  | .TIFF => []
  | .HEIF => ["quality", "lossless"]
  | .AVIF => ["quality", "lossless", "speed"]
  | .GIF => []
  | .JXL => ["quality", "lossless"]
  | _ => []

/-- The eight encodable formats, in the order of the rows of the table. -/
def encodable : List types :=
  [.JPEG, .PNG, .WEBP, .TIFF, .HEIF, .AVIF, .GIF, .JXL]

/-! ## The loader -/

/-- The three load entry points as functions of the in-parameters of their
prototypes, in the order of the prototype: the buffer `buf`, its length `len`,
and then `imageType` for `vips_init_image`, `shrink` for the two buffer
loaders. The result is the returned `int` and the image written to `*out`, if
any. The bodies are not in the header, so every theorem about the loader holds
for all functions of these types. -/
structure LoadBridges where
  vips_init_image : List Nat → Nat → Int → Int × Option VipsImage
  vips_jpegload_buffer_shrink : List Nat → Nat → Int → Int × Option VipsImage
  vips_webpload_buffer_shrink : List Nat → Nat → Int → Int × Option VipsImage

/-- What `Load` gives: the `UnsupportedFormat` failure, or what the entry point
it dispatched to returned. -/
inductive LoadResult where
  | UnsupportedFormat
  | returned (r : Int × Option VipsImage)
  deriving DecidableEq, Repr

/-- Modelled from the spec: the dispatch of the loader over the three load
entry points is not in the header, which has their prototypes only. The spec:
`Load(buffer, tag, shrinkFactor)`, where "`shrinkFactor` is an integer ≥ 1
honored only for formats whose codec supports partial decode-time downscale
(JPEG, WEBP); for other formats it is ignored", and which fails with
`UnsupportedFormat` if `tag` is UNKNOWN. So JPEG and WEBP go to their buffer
loader with the shrink factor, and every other format goes to the generic
loader `vips_init_image` with its tag as `imageType`. -/
def Load (b : LoadBridges) (buffer : List Nat) (tag : types) (shrinkFactor : Int) :
    LoadResult :=
  match tag with
  | .UNKNOWN => .UnsupportedFormat
  | .JPEG => .returned (b.vips_jpegload_buffer_shrink buffer buffer.length shrinkFactor)
  | .WEBP => .returned (b.vips_webpload_buffer_shrink buffer buffer.length shrinkFactor)
  | t => .returned (b.vips_init_image buffer buffer.length t.val)

/-- Sample entry points: the buffer loaders decode a 4000 by 3000 image at the
requested shrink, the generic loader decodes it at full size and fails on the
tag 0. -/
def sample_bridges : LoadBridges :=
  { vips_init_image := fun _ _ imageType =>
      if imageType = 0 then (1, none) else (0, some ⟨4000, 3000, 3, 22, none⟩),
    vips_jpegload_buffer_shrink := fun _ _ shrink =>
      (0, some ⟨4000 / shrink, 3000 / shrink, 3, 22, none⟩),
    vips_webpload_buffer_shrink := fun _ _ shrink =>
      (0, some ⟨4000 / shrink, 3000 / shrink, 3, 22, none⟩) }

/-! ## Sample images -/

/-- An RGB image with an embedded ICC profile and an orientation item. -/
def sample_rgb_with_profile : VipsImage :=
  { Xsize := 4, Ysize := 3, Bands := 3, Type_ := 22,
    meta := some [("exif-ifd0-Orientation", ⟨64, [54]⟩),
                  ("icc-profile-data", ⟨7, [0, 0, 2, 12]⟩)] }

/-- An RGBA image with an embedded ICC profile and an orientation item. -/
def sample_rgba_with_profile : VipsImage :=
  { Xsize := 4, Ysize := 3, Bands := 4, Type_ := 22,
    meta := some [("icc-profile-data", ⟨7, [0, 0, 2, 12]⟩),
                  ("exif-ifd0-Orientation", ⟨64, [54]⟩)] }

/-! ## Helper lemmas -/

theorem c_int_of_bool_eq_one (b : Bool) : c_int_of_bool b = 1 ↔ b = true := by
  cases b <;> simp [c_int_of_bool]

theorem c_int_of_bool_eq_zero (b : Bool) : c_int_of_bool b = 0 ↔ b = false := by
  cases b <;> simp [c_int_of_bool]

theorem has_alpha_channel_eq_one (image : VipsImage) :
    has_alpha_channel image = 1 ↔
      ((image.Bands = 2 ∧ image.Type_ = VIPS_INTERPRETATION_B_W) ∨
       (image.Bands = 4 ∧ image.Type_ ≠ VIPS_INTERPRETATION_CMYK) ∨
       (image.Bands = 5 ∧ image.Type_ = VIPS_INTERPRETATION_CMYK)) := by
  unfold has_alpha_channel
  rw [c_int_of_bool_eq_one]
  simp [or_assoc]

theorem has_alpha_channel_eq_zero (image : VipsImage) :
    has_alpha_channel image = 0 ↔
      ¬ ((image.Bands = 2 ∧ image.Type_ = VIPS_INTERPRETATION_B_W) ∨
         (image.Bands = 4 ∧ image.Type_ ≠ VIPS_INTERPRETATION_CMYK) ∨
         (image.Bands = 5 ∧ image.Type_ = VIPS_INTERPRETATION_CMYK)) := by
  rw [← has_alpha_channel_eq_one]
  unfold has_alpha_channel
  generalize ((image.Bands == 2 && image.Type_ == VIPS_INTERPRETATION_B_W) ||
     (image.Bands == 4 && image.Type_ != VIPS_INTERPRETATION_CMYK) ||
     (image.Bands == 5 && image.Type_ == VIPS_INTERPRETATION_CMYK)) = b
  cases b <;> simp [c_int_of_bool]

theorem has_alpha_channel_zero_or_one (image : VipsImage) :
    has_alpha_channel image = 0 ∨ has_alpha_channel image = 1 := by
  unfold has_alpha_channel
  generalize ((image.Bands == 2 && image.Type_ == VIPS_INTERPRETATION_B_W) ||
     (image.Bands == 4 && image.Type_ != VIPS_INTERPRETATION_CMYK) ||
     (image.Bands == 5 && image.Type_ == VIPS_INTERPRETATION_CMYK)) = b
  cases b <;> simp [c_int_of_bool]

theorem lookup_remove_self (table : List (String × GValue)) (key : String) :
    g_hash_table_lookup (g_hash_table_remove table key).1 key = none := by
  induction table with
  | nil => rfl
  | cons e rest ih =>
    obtain ⟨k, v⟩ := e
    by_cases h : k = key
    · simpa [g_hash_table_remove, List.filter_cons, h] using ih
    · simpa [g_hash_table_remove, List.filter_cons, h, g_hash_table_lookup] using ih

theorem lookup_remove_other (table : List (String × GValue)) (key name : String)
    (hne : name ≠ key) :
    g_hash_table_lookup (g_hash_table_remove table key).1 name =
      g_hash_table_lookup table name := by
  induction table with
  | nil => rfl
  | cons e rest ih =>
    obtain ⟨k, v⟩ := e
    by_cases h : k = key
    · have hk : k ≠ name := fun hk => hne (hk ▸ h)
      simpa [g_hash_table_remove, List.filter_cons, h, g_hash_table_lookup, hk, hne.symm,
        Ne.symm hne] using ih
    · by_cases hn : k = name
      · subst hn
        simp [g_hash_table_remove, List.filter_cons, h, g_hash_table_lookup]
      · simpa [g_hash_table_remove, List.filter_cons, h, g_hash_table_lookup, hn] using ih

theorem lookup_eq_none_iff (table : List (String × GValue)) (key : String) :
    g_hash_table_lookup table key = none ↔ ∀ v, (key, v) ∉ table := by
  induction table with
  | nil => simp [g_hash_table_lookup]
  | cons e rest ih =>
    obtain ⟨k, v⟩ := e
    by_cases h : k = key
    · subst h
      simp only [g_hash_table_lookup, if_true]
      constructor
      · intro hc; cases hc
      · intro hc; exact absurd (List.mem_cons_self _ _) (hc v)
    · simp only [g_hash_table_lookup, h, if_false, ih, List.mem_cons, Prod.mk.injEq]
      constructor
      · intro hc w hw
        rcases hw with hw | hw
        · exact h hw.1.symm
        · exact hc w hw
      · intro hc w hw
        exact hc w (Or.inr hw)

theorem lookup_mem (table : List (String × GValue)) (key : String) (v : GValue)
    (h : g_hash_table_lookup table key = some v) : (key, v) ∈ table := by
  induction table with
  | nil => simp [g_hash_table_lookup] at h
  | cons e rest ih =>
    obtain ⟨k, w⟩ := e
    by_cases hk : k = key
    · subst hk
      simp only [g_hash_table_lookup, if_true, Option.some.injEq] at h
      subst h
      exact List.mem_cons_self _ _
    · simp only [g_hash_table_lookup, hk, if_false] at h
      exact List.mem_cons_of_mem _ (ih h)

theorem icc_name_not_header_field : vips_header_fields.lookup VIPS_META_ICC_NAME = none := by
  decide

/-! ## The claims -/

/-- C1: `has_alpha_channel` returns 1 exactly when the band count is 2 and the
interpretation is B_W, or the band count is 4 and the interpretation is not
CMYK, or the band count is 5 and the interpretation is CMYK; it returns 0 in
every other case. -/
theorem has_alpha_channel_exactly (image : VipsImage) :
    (has_alpha_channel image = 1 ↔
      ((image.Bands = 2 ∧ image.Type_ = VIPS_INTERPRETATION_B_W) ∨
       (image.Bands = 4 ∧ image.Type_ ≠ VIPS_INTERPRETATION_CMYK) ∨
       (image.Bands = 5 ∧ image.Type_ = VIPS_INTERPRETATION_CMYK))) ∧
    (has_alpha_channel image = 0 ↔
      ¬ ((image.Bands = 2 ∧ image.Type_ = VIPS_INTERPRETATION_B_W) ∨
         (image.Bands = 4 ∧ image.Type_ ≠ VIPS_INTERPRETATION_CMYK) ∨
         (image.Bands = 5 ∧ image.Type_ = VIPS_INTERPRETATION_CMYK))) :=
  ⟨has_alpha_channel_eq_one image, has_alpha_channel_eq_zero image⟩

/-- C2: `enum types` has exactly the twelve tags UNKNOWN, JPEG, WEBP, PNG,
TIFF, GIF, PDF, SVG, MAGICK, HEIF, AVIF, JXL, valued 0 to 11 in that order:
UNKNOWN is 0, the value map is injective, and every integer from 0 to 11 is the
value of exactly one tag. -/
theorem types_packed :
    types.UNKNOWN.val = 0 ∧
    types.enumerators.map types.val = [0, 1, 2, 3, 4, 5, 6, 7, 8, 9, 10, 11] ∧
    types.enumerators.length = 12 ∧
    types.enumerators.Nodup ∧
    (∀ t : types, t ∈ types.enumerators) ∧
    Function.Injective types.val ∧
    (∀ n : Int, 0 ≤ n → n ≤ 11 → ∃! t : types, t.val = n) := by
  refine ⟨by decide, by decide, by decide, by decide, ?_, ?_, ?_⟩
  · intro t; cases t <;> decide
  · intro a b h
    cases a <;> cases b <;> first | rfl | exact absurd h (by decide)
  · intro n h0 h11
    have hall : ∀ t : types, t.val = n → ∀ u : types, u.val = n → u = t := by
      intro t ht u hu
      have h : u.val = t.val := hu.trans ht.symm
      cases t <;> cases u <;> first | rfl | exact absurd h (by decide)
    interval_cases n
    · exact ⟨.UNKNOWN, by decide, hall _ (by decide)⟩
    · exact ⟨.JPEG, by decide, hall _ (by decide)⟩
    · exact ⟨.WEBP, by decide, hall _ (by decide)⟩
    · exact ⟨.PNG, by decide, hall _ (by decide)⟩
    · exact ⟨.TIFF, by decide, hall _ (by decide)⟩
    · exact ⟨.GIF, by decide, hall _ (by decide)⟩
    · exact ⟨.PDF, by decide, hall _ (by decide)⟩
    · exact ⟨.SVG, by decide, hall _ (by decide)⟩
    · exact ⟨.MAGICK, by decide, hall _ (by decide)⟩
    · exact ⟨.HEIF, by decide, hall _ (by decide)⟩
    · exact ⟨.AVIF, by decide, hall _ (by decide)⟩
    · exact ⟨.JXL, by decide, hall _ (by decide)⟩

/-- The tag valued 3 is PNG and no other (C2 at the integer 3). -/
theorem types_packed_witness :
    (0 : Int) ≤ 3 ∧ (3 : Int) ≤ 11 ∧ ∃! t : types, t.val = 3 :=
  ⟨by decide, by decide, types_packed.2.2.2.2.2.2 3 (by decide) (by decide)⟩

/-- C3: a save bridge is declared for exactly the eight encodable formats, and
for each of them the bridge takes a knob among quality, compression, lossless,
interlace, palette and speed exactly when the row of the format in the table of
the spec has a check mark for it. -/
theorem save_bridge_knobs_match_table :
    (∀ t : types, (save_bridge t).isSome = true ↔ t ∈ encodable) ∧
    (∀ t : types, t ∈ encodable →
      ∃ d, save_bridge t = some d ∧
        ∀ p ∈ encode_knobs, (d.takes p = true ↔ p ∈ spec_accepted t)) := by
  constructor
  · intro t; cases t <;> decide
  · intro t ht
    cases t <;> first
      | exact absurd ht (by decide)
      | exact ⟨_, rfl, by decide⟩

/-- The PNG bridge against the PNG row of the table (C3 at PNG). -/
theorem save_bridge_knobs_match_table_witness :
    types.PNG ∈ encodable ∧
    ∃ d, save_bridge .PNG = some d ∧
      ∀ p ∈ encode_knobs, (d.takes p = true ↔ p ∈ spec_accepted .PNG) :=
  ⟨by decide, save_bridge_knobs_match_table.2 .PNG (by decide)⟩

/-- The save bridge of every encodable format other than TIFF takes a `strip`
parameter, the GIF bridge taking nothing else besides the image, the output
buffer and its length. -/
theorem strip_taken_by_siblings :
    (∀ t : types, t ∈ encodable → t ≠ .TIFF →
      ∃ d, save_bridge t = some d ∧ d.takes "strip" = true) ∧
    vips_gifsave_bridge.params.map CParam.name = ["in", "buf", "len", "strip"] := by
  refine ⟨?_, by decide⟩
  intro t ht hne
  cases t <;> first
    | exact absurd ht (by decide)
    | exact absurd rfl hne
    | exact ⟨_, rfl, by decide⟩

/-- C4: the claim that the save bridge of each of JPEG, PNG, WEBP, TIFF, HEIF,
AVIF, GIF and JXL takes a `strip` parameter does not hold of the header: TIFF
is one of the eight, and its save bridge takes the image, the output buffer and
its length and nothing else, so a strip flag cannot reach the TIFF encoder. -/
theorem strip_not_taken_by_tiff :
    types.TIFF ∈ encodable ∧
    save_bridge .TIFF = some vips_tiffsave_bridge ∧
    vips_tiffsave_bridge.params.map CParam.name = ["in", "buf", "len"] ∧
    vips_tiffsave_bridge.takes "strip" = false ∧
    ¬ (∀ t : types, t ∈ encodable →
        ∃ d, save_bridge t = some d ∧ d.takes "strip" = true) := by
  refine ⟨by decide, rfl, by decide, by decide, ?_⟩
  intro h
  obtain ⟨d, hd, hs⟩ := h .TIFF (by decide)
  have hd2 : d = vips_tiffsave_bridge := by
    simp only [save_bridge, Option.some.injEq] at hd
    exact hd.symm
  subst hd2
  exact absurd hs (by decide)

/-- C5: after `remove_profile`, `has_profile_embed` returns 0 whatever the
image held before; and on an image whose metadata values are initialised,
`has_profile_embed` is non-zero exactly when the metadata table holds an entry
under the ICC profile name. -/
theorem has_profile_embed_after_remove (g : String → GType) (image : VipsImage) :
    has_profile_embed g (remove_profile image) = 0 ∧
    (image.values_initialised →
      (has_profile_embed g image ≠ 0 ↔
        ∃ table v, image.meta = some table ∧ (VIPS_META_ICC_NAME, v) ∈ table)) := by
  constructor
  · unfold has_profile_embed vips_image_get_typeof
    rw [icc_name_not_header_field]
    unfold remove_profile vips_image_remove VipsImage.item
    cases hm : image.meta with
    | none => simp [hm]
    | some table => simp [lookup_remove_self]
  · intro hinit
    cases hm : image.meta with
    | none =>
      have h0 : has_profile_embed g image = 0 := by
        simp [has_profile_embed, vips_image_get_typeof, icc_name_not_header_field,
          VipsImage.item, hm]
      simp [h0]
    | some table =>
      cases hl : g_hash_table_lookup table VIPS_META_ICC_NAME with
      | none =>
        have h0 : has_profile_embed g image = 0 := by
          simp [has_profile_embed, vips_image_get_typeof, icc_name_not_header_field,
            VipsImage.item, hm, hl]
        have hno := (lookup_eq_none_iff table VIPS_META_ICC_NAME).1 hl
        constructor
        · intro hc
          exact absurd h0 hc
        · rintro ⟨t, v, ht, hv⟩
          cases ht
          exact absurd hv (hno v)
      | some value =>
        have hv : has_profile_embed g image = value.g_type := by
          simp [has_profile_embed, vips_image_get_typeof, icc_name_not_header_field,
            VipsImage.item, hm, hl]
        have hmem := lookup_mem table VIPS_META_ICC_NAME value hl
        have hne : value.g_type ≠ 0 := hinit table hm _ hmem
        constructor
        · intro _
          exact ⟨table, value, rfl, hmem⟩
        · intro _
          rw [hv]
          exact hne

/-- On the sample RGB image, which holds a profile of a valid type, the profile
is reported and is gone after removal (C5 at a concrete image). -/
theorem has_profile_embed_after_remove_witness :
    has_profile_embed (fun _ => 24) (remove_profile sample_rgb_with_profile) = 0 ∧
    sample_rgb_with_profile.values_initialised ∧
    (has_profile_embed (fun _ => 24) sample_rgb_with_profile ≠ 0 ↔
      ∃ table v, sample_rgb_with_profile.meta = some table ∧
        (VIPS_META_ICC_NAME, v) ∈ table) := by
  have hinit : sample_rgb_with_profile.values_initialised := by
    intro table ht e he
    simp only [sample_rgb_with_profile, Option.some.injEq] at ht
    subst ht
    simp only [List.mem_cons, List.mem_singleton, List.not_mem_nil, or_false] at he
    rcases he with he | he <;> subst he <;> decide
  exact ⟨(has_profile_embed_after_remove (fun _ => 24) sample_rgb_with_profile).1, hinit,
    (has_profile_embed_after_remove (fun _ => 24) sample_rgb_with_profile).2 hinit⟩

/-- C6: `remove_profile` leaves the width, the height, the band count and the
interpretation as they were; every metadata item under another name is
unchanged, the entries of the table afterwards being those before that are not
under the ICC profile name; and `has_alpha_channel` returns what it returned
before. -/
theorem remove_profile_frame (image : VipsImage) :
    (remove_profile image).Xsize = image.Xsize ∧
    (remove_profile image).Ysize = image.Ysize ∧
    (remove_profile image).Bands = image.Bands ∧
    (remove_profile image).Type_ = image.Type_ ∧
    (∀ name, name ≠ VIPS_META_ICC_NAME →
      (remove_profile image).item name = image.item name) ∧
    (∀ g name, name ≠ VIPS_META_ICC_NAME →
      vips_image_get_typeof g (remove_profile image) name =
        vips_image_get_typeof g image name) ∧
    (image.meta = none → (remove_profile image).meta = none) ∧
    (∀ table, image.meta = some table →
      ∃ table2, (remove_profile image).meta = some table2 ∧
        ∀ e, e ∈ table2 ↔ (e ∈ table ∧ e.1 ≠ VIPS_META_ICC_NAME)) ∧
    has_alpha_channel (remove_profile image) = has_alpha_channel image := by
  have hitem : ∀ name, name ≠ VIPS_META_ICC_NAME →
      (remove_profile image).item name = image.item name := by
    intro name hne
    unfold remove_profile vips_image_remove VipsImage.item
    cases hm : image.meta with
    | none => simp [hm]
    | some table => simp [lookup_remove_other table _ name hne]
  have hfields : (remove_profile image).Xsize = image.Xsize ∧
      (remove_profile image).Ysize = image.Ysize ∧
      (remove_profile image).Bands = image.Bands ∧
      (remove_profile image).Type_ = image.Type_ := by
    unfold remove_profile vips_image_remove
    cases hm : image.meta <;> simp
  refine ⟨hfields.1, hfields.2.1, hfields.2.2.1, hfields.2.2.2, hitem, ?_, ?_, ?_, ?_⟩
  · intro g name hne
    unfold vips_image_get_typeof
    rw [hitem name hne]
  · intro hm
    unfold remove_profile vips_image_remove
    simp [hm]
  · intro table hm
    refine ⟨(g_hash_table_remove table VIPS_META_ICC_NAME).1, ?_, ?_⟩
    · unfold remove_profile vips_image_remove
      simp [hm]
    · intro e
      simp [g_hash_table_remove, List.mem_filter]
  · unfold has_alpha_channel
    rw [hfields.2.2.1, hfields.2.2.2]

/-- On the sample RGBA image the orientation item survives the removal of the
profile (C6 at a concrete image and item name). -/
theorem remove_profile_frame_witness :
    EXIF_IFD0_ORIENTATION ≠ VIPS_META_ICC_NAME ∧
    (remove_profile sample_rgba_with_profile).item EXIF_IFD0_ORIENTATION =
      sample_rgba_with_profile.item EXIF_IFD0_ORIENTATION ∧
    sample_rgba_with_profile.item EXIF_IFD0_ORIENTATION = some ⟨64, [54]⟩ ∧
    has_alpha_channel (remove_profile sample_rgba_with_profile) = 1 :=
  ⟨by decide,
   (remove_profile_frame sample_rgba_with_profile).2.2.2.2.1 EXIF_IFD0_ORIENTATION (by decide),
   by decide, by decide⟩

/-- C7: shrink-on-load is honoured only for JPEG and WEBP. Among the load
entry points, the ones with a `shrink` parameter are exactly the JPEG and the
WEBP buffer loader, and the generic loader `vips_init_image` takes the buffer,
its length, the format tag `imageType` and the output image, and no shrink
factor. The loader passes the shrink factor to the JPEG and the WEBP buffer
loader, where it can change the decoded image; every other format but UNKNOWN
is dispatched to `vips_init_image` by its tag; and for every format other than
JPEG and WEBP, whatever the entry points compute, loading gives the same result
under any two shrink factors. -/
theorem shrink_only_jpeg_webp (b : LoadBridges) (buf : List Nat) (tag : types)
    (s1 s2 : Int) :
    (∀ d : CDecl, d ∈ load_entry_points →
      (d.takes "shrink" = true ↔
        (d = vips_jpegload_buffer_shrink ∨ d = vips_webpload_buffer_shrink))) ∧
    vips_init_image ∈ load_entry_points ∧
    vips_init_image.takes "shrink" = false ∧
    vips_init_image.takes "imageType" = true ∧
    vips_init_image.params.map CParam.name = ["buf", "len", "imageType", "out"] ∧
    Load b buf .JPEG s1 = .returned (b.vips_jpegload_buffer_shrink buf buf.length s1) ∧
    Load b buf .WEBP s1 = .returned (b.vips_webpload_buffer_shrink buf buf.length s1) ∧
    Load sample_bridges buf .JPEG 1 ≠ Load sample_bridges buf .JPEG 4 ∧
    Load sample_bridges buf .WEBP 1 ≠ Load sample_bridges buf .WEBP 4 ∧
    (tag ≠ .JPEG → tag ≠ .WEBP → tag ≠ .UNKNOWN →
      Load b buf tag s1 = .returned (b.vips_init_image buf buf.length tag.val)) ∧
    (tag ≠ .JPEG → tag ≠ .WEBP → Load b buf tag s1 = Load b buf tag s2) := by
  refine ⟨?_, by decide, by decide, by decide, by decide, rfl, rfl, ?_, ?_, ?_, ?_⟩
  · intro d hd
    simp only [load_entry_points, List.mem_cons, List.mem_singleton, List.not_mem_nil,
      or_false] at hd
    rcases hd with hd | hd | hd <;> subst hd <;> decide
  · simp only [Load, sample_bridges]
    decide
  · simp only [Load, sample_bridges]
    decide
  · intro hj hw hu
    cases tag <;> first
      | exact absurd rfl hj
      | exact absurd rfl hw
      | exact absurd rfl hu
      | rfl
  · intro hj hw
    cases tag <;> first
      | exact absurd rfl hj
      | exact absurd rfl hw
      | rfl

/-- Loading a PNG buffer with the sample entry points goes to the generic
loader with the tag 3 and gives the full-size image under shrink factor 1 and
under shrink factor 4 alike, while the generic loader has no shrink parameter
(C7 at a concrete buffer, tag and pair of shrink factors). -/
theorem shrink_only_jpeg_webp_witness :
    types.PNG ≠ .JPEG ∧ types.PNG ≠ .WEBP ∧ types.PNG ≠ .UNKNOWN ∧
    Load sample_bridges [137, 80, 78, 71] .PNG 1 =
      .returned (sample_bridges.vips_init_image [137, 80, 78, 71] 4 3) ∧
    Load sample_bridges [137, 80, 78, 71] .PNG 1 =
      Load sample_bridges [137, 80, 78, 71] .PNG 4 ∧
    Load sample_bridges [137, 80, 78, 71] .PNG 4 =
      .returned (0, some ⟨4000, 3000, 3, 22, none⟩) ∧
    vips_init_image ∈ load_entry_points ∧
    (vips_init_image.takes "shrink" = true ↔
      (vips_init_image = vips_jpegload_buffer_shrink ∨
        vips_init_image = vips_webpload_buffer_shrink)) :=
  ⟨by decide, by decide, by decide,
   (shrink_only_jpeg_webp sample_bridges [137, 80, 78, 71] .PNG 1 4).2.2.2.2.2.2.2.2.2.1
     (by decide) (by decide) (by decide),
   (shrink_only_jpeg_webp sample_bridges [137, 80, 78, 71] .PNG 1 4).2.2.2.2.2.2.2.2.2.2
     (by decide) (by decide),
   by decide, by decide,
   (shrink_only_jpeg_webp sample_bridges [137, 80, 78, 71] .PNG 1 4).1 vips_init_image
     (by decide)⟩

/-- C8: `vips_flatten_background_brigde` returns an image without alpha as it
is, and turns an image with alpha into one for which `has_alpha_channel`
returns 0. -/
theorem flatten_background_alpha (image : VipsImage) (r g b : Rat) :
    (has_alpha_channel image = 0 →
      vips_flatten_background_brigde image r g b = image) ∧
    (has_alpha_channel image ≠ 0 →
      has_alpha_channel (vips_flatten_background_brigde image r g b) = 0) := by
  constructor
  · intro h
    simp [vips_flatten_background_brigde, h]
  · intro h
    have h1 : has_alpha_channel image = 1 := by
      rcases has_alpha_channel_zero_or_one image with h0 | h1
      · exact absurd h0 h
      · exact h1
    have hc := (has_alpha_channel_eq_one image).1 h1
    simp only [vips_flatten_background_brigde, h, if_false]
    rw [has_alpha_channel_eq_zero]
    simp only [VIPS_INTERPRETATION_B_W, VIPS_INTERPRETATION_CMYK] at hc ⊢
    omega

/-- Flattening the sample RGBA image gives a three-band image without alpha,
and the sample RGB image comes back as it is (C8 at concrete images). -/
theorem flatten_background_alpha_witness :
    has_alpha_channel sample_rgba_with_profile ≠ 0 ∧
    has_alpha_channel (vips_flatten_background_brigde sample_rgba_with_profile 255 255 255) = 0 ∧
    has_alpha_channel sample_rgb_with_profile = 0 ∧
    vips_flatten_background_brigde sample_rgb_with_profile 255 255 255 =
      sample_rgb_with_profile :=
  ⟨by decide,
   (flatten_background_alpha sample_rgba_with_profile 255 255 255).2 (by decide),
   by decide,
   (flatten_background_alpha sample_rgb_with_profile 255 255 255).1 (by decide)⟩

/-- C9: `INT_TO_GBOOLEAN` gives TRUE exactly when its argument is greater than
0 and FALSE otherwise; it maps 0 to 0 and 1 to 1; and a negative argument, true
as a C condition, is mapped to FALSE. -/
theorem int_to_gboolean_positive (b : Int) :
    (INT_TO_GBOOLEAN b = TRUE ↔ b > 0) ∧
    (INT_TO_GBOOLEAN b = FALSE ↔ ¬ b > 0) ∧
    INT_TO_GBOOLEAN 0 = 0 ∧
    INT_TO_GBOOLEAN 1 = 1 ∧
    (b < 0 → INT_TO_GBOOLEAN b = FALSE ∧ c_truthy b = true) := by
  have hT : TRUE = 1 := by decide
  have hF : FALSE = 0 := rfl
  refine ⟨?_, ?_, by decide, by decide, ?_⟩
  · unfold INT_TO_GBOOLEAN
    by_cases h : b > 0 <;> simp [h, hT, hF]
  · unfold INT_TO_GBOOLEAN
    by_cases h : b > 0 <;> simp [h, hT, hF]
  · intro h
    have hn : ¬ b > 0 := by omega
    have hne : b ≠ 0 := by omega
    constructor
    · simp [INT_TO_GBOOLEAN, hn]
    · simp [c_truthy, hne]

/-- The flag -1 is true in C and converts to FALSE (C9 at -1). -/
theorem int_to_gboolean_positive_witness :
    (-1 : Int) < 0 ∧ INT_TO_GBOOLEAN (-1) = FALSE ∧ c_truthy (-1) = true :=
  ⟨by decide, (int_to_gboolean_positive (-1)).2.2.2.2 (by decide)⟩

/-- C10: when the band count is none of 2, 4 and 5, `has_alpha_channel` returns
0 whatever the interpretation; and on a CMYK image it returns 1 if and only if
the band count is 5. -/
theorem has_alpha_channel_bands (image : VipsImage) :
    (image.Bands ≠ 2 → image.Bands ≠ 4 → image.Bands ≠ 5 →
      has_alpha_channel image = 0) ∧
    (image.Type_ = VIPS_INTERPRETATION_CMYK →
      (has_alpha_channel image = 1 ↔ image.Bands = 5)) := by
  constructor
  · intro h2 h4 h5
    rw [has_alpha_channel_eq_zero]
    rintro (⟨h, _⟩ | ⟨h, _⟩ | ⟨h, _⟩)
    · exact h2 h
    · exact h4 h
    · exact h5 h
  · intro hc
    have hbw : VIPS_INTERPRETATION_CMYK ≠ VIPS_INTERPRETATION_B_W := by decide
    rw [has_alpha_channel_eq_one]
    constructor
    · rintro (⟨_, h⟩ | ⟨_, h⟩ | ⟨h, _⟩)
      · exact absurd (hc.symm.trans h) hbw
      · exact absurd hc h
      · exact h
    · intro h5
      exact Or.inr (Or.inr ⟨h5, hc⟩)

/-- A three-band image reports no alpha, and a four-band CMYK image reports
alpha exactly when it has five bands, that is, it does not (C10 at concrete
images). -/
theorem has_alpha_channel_bands_witness :
    has_alpha_channel sample_rgb_with_profile = 0 ∧
    (has_alpha_channel ⟨4, 3, 4, VIPS_INTERPRETATION_CMYK, none⟩ = 1 ↔ (4 : Int) = 5) :=
  ⟨(has_alpha_channel_bands sample_rgb_with_profile).1 (by decide) (by decide) (by decide),
   (has_alpha_channel_bands ⟨4, 3, 4, VIPS_INTERPRETATION_CMYK, none⟩).2 rfl⟩

end Bimg
